import Mathlib

/-!
Verification development for the JuPedSim pedestrian-model adapter
(src/src/microsim/transportables/MSPModel_JuPedSim.cpp).

The adapter bridges the host road network with the external JuPedSim
pedestrian engine.  The engine (JPS_* calls), the GEOS geometry library and
the host network/stage interfaces are external collaborators; they are
embedded as black boxes whose replies are explicit inputs (oracles) of the
embedded functions, while every piece of adapter control flow and adapter
state is translated from the source.

Machine doubles are modelled by rationals.  Where the source compares a
Euclidean distance (Position::distanceTo2D, the square root of the sum of
squared coordinate differences, ignoring elevation) with a threshold, the
model compares the squared distance with the squared threshold, which is
equivalent for a nonnegative threshold and keeps every definition decidable.
-/

/-- A 2D Cartesian position (the z coordinate of the source Position type is
ignored by all code modelled here: distanceTo2D is explicitly 2D). -/
structure Pos where
  x : ℚ
  y : ℚ
deriving Repr, DecidableEq

/-- Squared 2D Euclidean distance.  The source distanceTo2D returns the
square root of this quantity; comparisons with a nonnegative threshold t in
the source correspond to comparisons with t*t here. -/
def distSq (p q : Pos) : ℚ :=
  (p.x - q.x) * (p.x - q.x) + (p.y - q.y) * (p.y - q.y)

/-- Observable effects of the adapter on its collaborators: log lines and
calls into the external engine and geometry library.  Engine-supplied
diagnostic messages are opaque naturals. -/
inductive Event where
  /-- WRITE_WARNINGF line that does not embed an engine message
  (e.g. the multiple-connected-components warning). -/
  | warn : Event
  /-- WRITE_WARNINGF line embedding an engine-supplied error message. -/
  | warnMsg (msg : ℕ) : Event
  /-- WRITE_ERRORF line from a failed engine iteration sub-step. -/
  | errorLog : Event
  /-- JPS_Simulation_AddJourney succeeded, returning this journey id. -/
  | addJourney (journeyId : ℕ) : Event
  /-- JPS_Simulation_AddCollisionFreeSpeedModelAgent succeeded. -/
  | addAgent (agentId : ℕ) : Event
  /-- JPS_Simulation_MarkAgentForRemoval call. -/
  | markForRemoval (agentId : ℕ) : Event
  /-- JPS_JourneyDescription_Free call (PState destructor, line 770). -/
  | freeJourney (journeyId : ℕ) : Event
  /-- myPedestrianStates.clear() inside clearState. -/
  | clearTrackedStates : Event
  /-- JPS_Simulation_Free call. -/
  | freeSimulation : Event
  /-- JPS_OperationalModel_Free call. -/
  | freeModel : Event
  /-- JPS_CollisionFreeSpeedModelBuilder_Free call. -/
  | freeModelBuilder : Event
  /-- JPS_Geometry_Free call. -/
  | freeGeometry : Event
  /-- JPS_GeometryBuilder_Free call. -/
  | freeGeometryBuilder : Event
  /-- GEOSGeom_destroy(myGEOSPedestrianNetwork) call. -/
  | destroyNetwork : Event
  /-- finishGEOS() call (geometry-library global shutdown). -/
  | finishGEOSCall : Event
  /-- JPS_GeometryBuilder_AddAccessibleArea / _Build: engine geometry built
  from the selected walkable component (initialize, lines 717-722). -/
  | engineGeometryBuilt : Event
deriving Repr, DecidableEq

/-- The live per-pedestrian record (PState, constructed at lines 761-766).
The agent id placeholder is 0 and the insertion flag starts true, matching
the constructor initializer list myAgentId(0), myWaitingToEnter(true). -/
structure PState where
  person : ℕ
  journeyId : ℕ
  stageId : ℕ
  waypoints : List Pos
  agentId : ℕ
  position : Pos
  previousPosition : Pos
  angle : ℚ
  lanePosition : ℚ
  waitingToEnter : Bool
deriving Repr, DecidableEq

/-- Modelled from the spec: PState::setAgentId is declared only in the
missing header MSPModel_JuPedSim.h.  Spec section 4.5: on success, store the
returned agent id and clear the waiting-to-enter flag. -/
def PState.setAgentId (s : PState) (id : ℕ) : PState :=
  { s with agentId := id, waitingToEnter := false }

/-- Modelled from the spec: PState::isWaitingToEnter is declared only in the
missing header; it reads the insertion flag (spec section 3, PedestrianState
insertion flag). -/
def PState.isWaitingToEnter (s : PState) : Bool :=
  s.waitingToEnter

/-- Modelled from the spec: PState::advanceNextWaypoint is declared only in
the missing header.  Spec section 4.4 step 2e: pop the completed waypoint
from the front of the queue; the caller tests whether that was the last
waypoint, so the call reports whether the queue is now empty.  Returns the
updated state and that emptiness flag. -/
def PState.advanceNextWaypoint (s : PState) : PState × Bool :=
  let s2 := { s with waypoints := s.waypoints.tail }
  (s2, s2.waypoints.isEmpty)

/-- PState::getNextWaypoint (lines 839-841) returns myWaypoints.front().
front() on an empty vector is undefined in the source; the total model
returns the origin in that (unreachable while the pedestrian is tracked,
see the queue invariant) case. -/
def PState.getNextWaypoint (s : PState) : Pos :=
  s.waypoints.headD { x := 0, y := 0 }

/-- Adapter state: the tracked pedestrian states (vector myPedestrianStates,
in insertion order) and the active-pedestrian counter
(myNumActivePedestrians, a C++ int, hence an integer here). -/
structure Model where
  pedestrianStates : List PState
  numActivePedestrians : ℤ
deriving Repr, DecidableEq

/-- MSPModel_JuPedSim::clearState (lines 354-357): clears the container of
raw PState pointers and resets the counter.  Clearing a vector of raw
pointers does not invoke the PState destructors, so no journey description
is freed here. -/
def clearState (_m : Model) : Model :=
  { pedestrianStates := [], numActivePedestrians := 0 }

/-- The adapter destructor (lines 66-77): clearState, then the engine
handles are freed in the order simulation, operational model, model builder,
geometry, geometry builder, then the GEOS network polygon is destroyed and
the GEOS library is shut down.  Because clearState only clears the pointer
container, no Event.freeJourney occurs in this trace. -/
def destructor (m : Model) : Model × List Event :=
  (clearState m,
   [Event.clearTrackedStates, Event.freeSimulation, Event.freeModel,
    Event.freeModelBuilder, Event.freeGeometry, Event.freeGeometryBuilder,
    Event.destroyNetwork, Event.finishGEOSCall])

/-- MSPModel_JuPedSim::remove (lines 250-254): the body is empty apart from
a comment; adapter state is untouched and nothing is logged or freed. -/
def remove (m : Model) (_state : PState) : Model × List Event :=
  (m, [])

/-- The final walkable geometry as produced by the external GEOS library
(union of walkable polygons minus union of obstacles): whether GEOSisSimple
holds, and the GEOSArea of each connected component (GEOSGetGeometryN).
The GEOS boolean operations themselves are external black boxes, so this
result is an input of the embedded initialization code. -/
structure GeosGeometry where
  simple : Bool
  componentAreas : List ℚ
deriving Repr, DecidableEq

/-- The final gate of MSPModel_JuPedSim::buildPedestrianNetwork
(lines 555-560): if the merged geometry is not simple, a ProcessError with
this message is thrown, which aborts adapter construction; otherwise the
geometry is returned.  The preceding polygon accumulation, union and
difference are GEOS black boxes absorbed in the input. -/
def buildPedestrianNetwork (g : GeosGeometry) : Except String GeosGeometry :=
  if g.simple = false then
    Except.error "Union of walkable areas minus union of obstacles is not a simple polygon."
  else
    Except.ok g

/-- The component-selection loop of MSPModel_JuPedSim::initialize
(lines 700-713): maxArea starts at 0.0 and the tracked component is replaced
exactly when a component has strictly greater area.  Arguments: remaining
areas, index of the first of them, running maxArea, index of the best
component so far. -/
def selectLoop : List ℚ → ℕ → ℚ → Option ℕ → Option ℕ × ℚ
  | [], _, maxArea, best => (best, maxArea)
  | a :: rest, i, maxArea, best =>
    if a > maxArea then selectLoop rest (i + 1) a (some i)
    else selectLoop rest (i + 1) maxArea best

/-- Index of the connected component selected for the engine
(maxAreaConnectedComponentPolygon); none when no component has positive
area (then the source keeps a null pointer). -/
def selectMaxAreaIndex (areas : List ℚ) : Option ℕ :=
  (selectLoop areas 0 0 none).1

/-- MSPModel_JuPedSim::initialize (lines 681-741), up to engine-handle
creation: build the pedestrian network (fatal on a non-simple geometry),
warn when more than one connected component was detected (lines 684-688),
select the maximum-area component and feed it to the engine geometry
builder (preparePolygonForJPS / JPS_GeometryBuilder_Build, recorded as
Event.engineGeometryBuilt).  The subsequent model and simulation handle
creation calls are engine black boxes no claim depends on. -/
def initializeAdapter (g : GeosGeometry) : Except String (Option ℕ) × List Event :=
  match buildPedestrianNetwork g with
  | Except.error e => (Except.error e, [])
  | Except.ok g2 =>
    let warnEvents := if g2.componentAreas.length > 1 then [Event.warn] else []
    (Except.ok (selectMaxAreaIndex g2.componentAreas),
     warnEvents ++ [Event.engineGeometryBuilt])

/-- Edge classification used by the connector logic: MSEdge::isNormal,
isCrossing and isWalkingArea are mutually exclusive function kinds; every
other function kind (e.g. internal) is grouped as otherKind. -/
inductive EdgeKind where
  | normal : EdgeKind
  | crossing : EdgeKind
  | walkingArea : EdgeKind
  | otherKind : EdgeKind
deriving Repr, DecidableEq

/-- MSEdge::isNormal. -/
def EdgeKind.isNormal : EdgeKind → Bool
  | EdgeKind.normal => true
  | _ => false

/-- MSEdge::isCrossing. -/
def EdgeKind.isCrossing : EdgeKind → Bool
  | EdgeKind.crossing => true
  | _ => false

/-- What the edge-pair branch of buildPedestrianNetwork accumulates for one
adjacent pair joined by a walking area. -/
inductive ConnectorAction where
  /-- The designated walking-area shape polygon was simple and is
  accumulated directly (lines 482-486). -/
  | useShape : ConnectorAction
  /-- A connector polygon is synthesized by createGeometryFromAnchors from
  anchors computed on the two lanes by getAnchor. -/
  | anchorsReal : ConnectorAction
  /-- A connector polygon is synthesized by createGeometryFromAnchors, but
  from default-constructed anchors (the Position default constructor leaves
  both anchors at the origin), because the branch taken never assigned
  them. -/
  | anchorsDefault : ConnectorAction
  /-- The continue statement is reached: nothing is synthesized or
  accumulated for this pair. -/
  | skip : ConnectorAction
deriving Repr, DecidableEq

/-- The edge-pair case analysis of buildPedestrianNetwork (lines 481-507)
for a pair (edge, nextEdge) joined by a walking-area edge:
normal/normal uses the walking-area shape when it is simple
(createGeometryFromShape returns null for a non-simple shape, argument
walkingAreaShapeSimple) and otherwise computes anchors; in the mixed
normal/crossing cases the anchors are assigned only when none of the
relevant walking-area neighbors (its predecessors when edge is a crossing,
its successors otherwise) is normal — but createGeometryFromAnchors at
line 506 runs in this case regardless, so when some neighbor is normal a
connector is still synthesized, from the default-constructed anchors;
crossing/crossing always computes anchors; every other combination hits
continue.  Arguments walkingAreaIncoming and walkingAreaOutgoing are the
classifications of the predecessor and successor edges of the walking-area
edge. -/
def connectorCase (edgeKind nextEdgeKind : EdgeKind) (walkingAreaShapeSimple : Bool)
    (walkingAreaIncoming walkingAreaOutgoing : List EdgeKind) : ConnectorAction :=
  if edgeKind.isNormal && nextEdgeKind.isNormal then
    if walkingAreaShapeSimple then ConnectorAction.useShape
    else ConnectorAction.anchorsReal
  else if (edgeKind.isNormal && nextEdgeKind.isCrossing)
      || (edgeKind.isCrossing && nextEdgeKind.isNormal) then
    let walkingAreaEdges :=
      if edgeKind.isCrossing then walkingAreaIncoming else walkingAreaOutgoing
    if walkingAreaEdges.all (fun e => !e.isNormal) then ConnectorAction.anchorsReal
    else ConnectorAction.anchorsDefault
  else if edgeKind.isCrossing && nextEdgeKind.isCrossing then ConnectorAction.anchorsReal
  else ConnectorAction.skip

/-- One JPS_JourneyDescription: the ordered stage ids added by
JPS_JourneyDescription_AddStage.  Transitions are set on the engine side and
carry no adapter-visible state beyond success or failure. -/
structure JourneyDesc where
  stages : List ℕ
deriving Repr, DecidableEq

deriving instance DecidableEq for Except

/-- Engine replies for one addWaypoint call (lines 123-150): the result of
JPS_Simulation_AddStageWaypoint (stage id or error message), and of
JPS_Transition_CreateFixedTransition and
JPS_JourneyDescription_SetTransitionForStage (consulted only when the call
has a predecessor stage). -/
structure WaypointReply where
  addStage : Except ℕ ℕ
  createTransition : Except ℕ Unit
  setTransition : Except ℕ Unit
deriving Repr, DecidableEq

/-- MSPModel_JuPedSim::addWaypoint (lines 123-150): register one waypoint
stage with the engine and chain it to the predecessor stage.  On any engine
error a warning embedding the engine message is written and false is
returned (modelled as none); on success the stage is appended to the journey
and becomes the new predecessor. -/
def addWaypoint (r : WaypointReply) (journey : JourneyDesc) (predecessor : ℕ) :
    Option (JourneyDesc × ℕ) × List Event :=
  match r.addStage with
  | Except.error msg => (none, [Event.warnMsg msg])
  | Except.ok waypointId =>
    if predecessor ≠ 0 then
      match r.createTransition with
      | Except.error msg => (none, [Event.warnMsg msg])
      | Except.ok _ =>
        match r.setTransition with
        | Except.error msg => (none, [Event.warnMsg msg])
        | Except.ok _ =>
          (some ({ stages := journey.stages ++ [waypointId] }, waypointId), [])
    else
      (some ({ stages := journey.stages ++ [waypointId] }, waypointId), [])

/-- The stage-scanning loop of MSPModel_JuPedSim::add (lines 196-216), with
the per-stage arrival points already computed by the host black box (the
points pushed into the local waypoints vector): push each point, register it
via addWaypoint (abort on failure), and set the starting stage on the first
success.  Arguments: per-call engine replies indexed by call number, the
points still to process, the next call number, the journey built so far, the
predecessor stage, the starting stage, the waypoints accumulated so far.
Returns none on abort, else the updated journey, predecessor, starting stage
and waypoint vector, together with the log events. -/
def addWaypointLoop (replyAt : ℕ → WaypointReply) :
    List Pos → ℕ → JourneyDesc → ℕ → ℕ → List Pos →
    Option (JourneyDesc × ℕ × ℕ × List Pos) × List Event
  | [], _, journey, predecessor, startingStage, waypoints =>
    (some (journey, predecessor, startingStage, waypoints), [])
  | p :: rest, k, journey, predecessor, startingStage, waypoints =>
    let waypoints2 := waypoints ++ [p]
    match addWaypoint (replyAt k) journey predecessor with
    | (none, evs) => (none, evs)
    | (some (journey2, predecessor2), evs) =>
      let startingStage2 := if startingStage = 0 then predecessor2 else startingStage
      let out := addWaypointLoop replyAt rest (k + 1) journey2 predecessor2 startingStage2 waypoints2
      (out.1, evs ++ out.2)

/-- MSPModel_JuPedSim::tryPedestrianInsertion (lines 80-120): attempt to
register the state as a live engine agent.  The agent-parameter assembly
(journey id, stage id, position, radius from the vehicle type, maximum
speed) only feeds the black-box engine call and moves no adapter state, so
it is absorbed into the oracle reply.  On an engine error the message is
logged as a warning and the state is untouched (the insertion flag stays
set, the agent id keeps its previous value); on success the agent id is
stored, which clears the waiting-to-enter flag. -/
def tryPedestrianInsertion (reply : Except ℕ ℕ) (state : PState) :
    PState × List Event :=
  match reply with
  | Except.error msg => (state, [Event.warnMsg msg])
  | Except.ok agentId => (state.setAgentId agentId, [Event.addAgent agentId])

/-- Engine replies consulted by one call of MSPModel_JuPedSim::add: the
per-call addWaypoint replies, the JPS_Simulation_AddJourney result and the
agent-insertion result. -/
structure AddReplies where
  waypointReply : ℕ → WaypointReply
  addJourney : Except ℕ ℕ
  insertion : Except ℕ ℕ

/-- Host-side departure data computed by lines 161-190 of add (departure
lane shape offsets, lateral offset sign flip, and the RANDOM_LOCATION
rejection sampling): the resulting departure position, the departure lane
rotation at the depart offset, and the stage depart position.  These queries
read only host state, so they enter the model as one input. -/
structure DepartInfo where
  position : Pos
  angle : ℚ
  departPos : ℚ
deriving Repr, DecidableEq

/-- MSPModel_JuPedSim::add (lines 153-247).  If the person already has a
tracked state, that state is returned unchanged (lines 156-160).  Otherwise
the stage scan registers the intermediate arrival points, then the final
arrival position, as engine waypoints (any failure returns a null state with
the adapter untouched); the journey is registered with the engine (failure
likewise aborts); then the PState is constructed (placeholder agent id 0,
waiting to enter), initialized from the departure data, appended to the
tracked set, the active-pedestrian counter is incremented, and an immediate
engine insertion is attempted.  Returns the new adapter state, the state
returned to the caller (none for an aborted insertion), and the log/engine
events. -/
def add (rep : AddReplies) (m : Model) (person : ℕ) (dep : DepartInfo)
    (intermediates : List Pos) (arrivalPosition : Pos) :
    Model × Option PState × List Event :=
  match m.pedestrianStates.find? (fun ps => ps.person == person) with
  | some pstate => (m, some pstate, [])
  | none =>
    match addWaypointLoop rep.waypointReply intermediates 0 { stages := [] } 0 0 [] with
    | (none, evs) => (m, none, evs)
    | (some (journey, predecessor, startingStage, waypoints), evs) =>
      let waypoints2 := waypoints ++ [arrivalPosition]
      match addWaypoint (rep.waypointReply intermediates.length) journey predecessor with
      | (none, evs2) => (m, none, evs ++ evs2)
      | (some (_journey2, predecessor2), evs2) =>
        let startingStage2 := if startingStage = 0 then predecessor2 else startingStage
        match rep.addJourney with
        | Except.error msg => (m, none, evs ++ evs2 ++ [Event.warnMsg msg])
        | Except.ok journeyId =>
          let state : PState :=
            { person := person, journeyId := journeyId, stageId := startingStage2,
              waypoints := waypoints2, agentId := 0,
              position := dep.position, previousPosition := dep.position,
              angle := dep.angle, lanePosition := dep.departPos,
              waitingToEnter := true }
          let out := tryPedestrianInsertion rep.insertion state
          ({ pedestrianStates := m.pedestrianStates ++ [out.1],
             numActivePedestrians := m.numActivePedestrians + 1 },
           some out.1,
           evs ++ evs2 ++ [Event.addJourney journeyId] ++ out.2)

/-- Modelled from the spec: the host stage object (MSStageMoving, outside
this repository) is reduced to its count of route edges after the current
one; the host command moveToNextEdge advances to the next route edge and
returns whether this causes arrival (spec section 6, host pedestrian-stage
interface). -/
structure HostStage where
  remainingEdges : ℕ
deriving Repr, DecidableEq

/-- Modelled from the spec: MSStageMoving::moveToNextEdge advances the host
stage one route edge, returning true exactly when it can advance no further
(arrival at the end of the route). -/
def moveToNextEdge (st : HostStage) : HostStage × Bool :=
  match st.remainingEdges with
  | 0 => (st, true)
  | n + 1 => ({ remainingEdges := n }, false)

/-- The drain loop at line 320, while (!stage->moveToNextEdge(...)): advance
the host stage repeatedly until moveToNextEdge reports arrival. -/
def drainEdges : HostStage → HostStage
  | { remainingEdges := 0 } => { remainingEdges := 0 }
  | { remainingEdges := n + 1 } => drainEdges { remainingEdges := n }

/-- Engine and host observations consumed while processing one pedestrian in
one step of MSPModel_JuPedSim::execute: the agent position reported by
JPS_Agent_GetPosition, the heading angle (atan2 of the orientation reported
by JPS_Agent_GetOrientation), the result of the forward-route map matching
(libsumo moveToXYMap_matchingRoutePosition: whether a lane was found, its
longitudinal position, whether the expected and candidate lanes are normal
and whether they coincide), the insertion reply (consulted only while the
pedestrian waits to enter), and the host stage state. -/
structure StepObs where
  agentPos : Pos
  agentAngle : ℚ
  matchFound : Bool
  matchLanePos : ℚ
  expectedNormal : Bool
  candidateNormal : Bool
  candidateIsExpected : Bool
  insertionReply : Except ℕ ℕ
  stageRemaining : ℕ
deriving Repr, DecidableEq

/-- Result of processing one pedestrian: the surviving state (none when the
state was erased from the tracked set), the host stage after any advances,
and the emitted events. -/
structure StepOutcome where
  state : Option PState
  stage : HostStage
  events : List Event
deriving Repr, DecidableEq

/-- The per-pedestrian body of the state-update loop of
MSPModel_JuPedSim::execute (lines 272-330).  A pedestrian still waiting to
enter only retries insertion (no position update).  Otherwise the position,
previous position and heading are refreshed from the engine; a successful
map match updates the lane position; when the matched lane is a normal lane
different from the expected normal lane, the lane position is set again and
the host stage advances one edge.  Then, iff the squared distance from the
new position to the next pending waypoint is strictly below the square of
twice the exit tolerance (the source compares the Euclidean distance with
2 * myExitTolerance at line 319), the host stage is drained and the waypoint
is popped; if it was the last waypoint the agent is marked for engine
removal and the state is erased. -/
def processPedestrian (tol : ℚ) (obs : StepObs) (s : PState) : StepOutcome :=
  if s.isWaitingToEnter then
    let out := tryPedestrianInsertion obs.insertionReply s
    { state := some out.1, stage := { remainingEdges := obs.stageRemaining },
      events := out.2 }
  else
    let s1 := { s with previousPosition := s.position }
    let s2 := { s1 with position := obs.agentPos }
    let s3 := { s2 with angle := obs.agentAngle }
    let s4 := if obs.matchFound then { s3 with lanePosition := obs.matchLanePos } else s3
    let stageAdvance :=
      obs.matchFound && obs.expectedNormal && obs.candidateNormal && !obs.candidateIsExpected
    let s5 := if stageAdvance then { s4 with lanePosition := obs.matchLanePos } else s4
    let stage1 : HostStage :=
      if stageAdvance then (moveToNextEdge { remainingEdges := obs.stageRemaining }).1
      else { remainingEdges := obs.stageRemaining }
    if distSq obs.agentPos s5.getNextWaypoint < (2 * tol) * (2 * tol) then
      let stage2 := drainEdges stage1
      let out := s5.advanceNextWaypoint
      if out.2 then
        { state := none, stage := stage2, events := [Event.markForRemoval out.1.agentId] }
      else
        { state := some out.1, stage := stage2, events := [] }
    else
      { state := some s5, stage := stage1, events := [] }

/-- The state-update loop of execute (lines 272-330) over the tracked
states in insertion order, with the per-pedestrian observations indexed by
position in the iteration; erasing the current element (line 325) continues
with the next one.  Returns the surviving states, the number of arrivals
(registerArrived calls, line 323) and the emitted events. -/
def executeLoop (tol : ℚ) (obs : ℕ → StepObs) :
    ℕ → List PState → List PState × ℕ × List Event
  | _, [] => ([], 0, [])
  | k, s :: rest =>
    let r := processPedestrian tol (obs k) s
    let out := executeLoop tol obs (k + 1) rest
    match r.state with
    | some s2 => (s2 :: out.1, out.2.1, r.events ++ out.2.2)
    | none => (out.1, out.2.1 + 1, r.events ++ out.2.2)

/-- The engine sub-step loop of execute (lines 259-267): nbrIterations
calls of JPS_Simulation_Iterate, each failure logged as an error line
without stopping the loop. -/
def iterateLoop (iterOk : ℕ → Bool) : ℕ → List Event
  | 0 => []
  | n + 1 => iterateLoop iterOk n ++ (if iterOk n then [] else [Event.errorLog])

/-- MSPModel_JuPedSim::execute (lines 257-335): sub-step the engine, then
update every tracked pedestrian; each arrival decrements the
active-pedestrian counter (registerArrived, lines 344-346). -/
def execute (tol : ℚ) (iterOk : ℕ → Bool) (nbrIterations : ℕ) (obs : ℕ → StepObs)
    (m : Model) : Model × List Event :=
  let iterEvents := iterateLoop iterOk nbrIterations
  let out := executeLoop tol obs 0 m.pedestrianStates
  ({ pedestrianStates := out.1,
     numActivePedestrians := m.numActivePedestrians - out.2.1 },
   iterEvents ++ out.2.2)

/-- Number of JPS_Simulation_MarkAgentForRemoval calls in an event list. -/
def countRemovalRequests : List Event → ℕ
  | [] => 0
  | Event.markForRemoval _ :: rest => countRemovalRequests rest + 1
  | _ :: rest => countRemovalRequests rest

/-- Concrete geometry used to exercise the component-selection theorem. -/
def gSel : GeosGeometry := { simple := true, componentAreas := [1, 3, 2] }

/-- Concrete non-simple geometry used to exercise the fatal-error theorem. -/
def gBad : GeosGeometry := { simple := false, componentAreas := [1] }

/-- A tracked, already inserted pedestrian state with journey id 7, used to
exhibit the destructor trace. -/
def stDtor : PState :=
  { person := 0, journeyId := 7, stageId := 1, waypoints := [{ x := 1, y := 1 }],
    agentId := 3, position := { x := 0, y := 0 }, previousPosition := { x := 0, y := 0 },
    angle := 0, lanePosition := 0, waitingToEnter := false }

/-- An adapter tracking one pedestrian, used to exhibit the destructor
trace. -/
def mDtor : Model := { pedestrianStates := [stDtor], numActivePedestrians := 1 }

/-- A tracked pedestrian state for the idempotent-insertion witness. -/
def stIdem : PState :=
  { person := 4, journeyId := 9, stageId := 1, waypoints := [{ x := 1, y := 2 }],
    agentId := 2, position := { x := 0, y := 0 }, previousPosition := { x := 0, y := 0 },
    angle := 0, lanePosition := 0, waitingToEnter := false }

/-- An adapter already tracking stIdem. -/
def mIdem : Model := { pedestrianStates := [stIdem], numActivePedestrians := 1 }

/-- Engine replies where every call succeeds. -/
def repOk : AddReplies :=
  { waypointReply := fun _ =>
      { addStage := Except.ok 11, createTransition := Except.ok (),
        setTransition := Except.ok () },
    addJourney := Except.ok 21, insertion := Except.ok 31 }

/-- Engine replies where journey registration fails with message 5. -/
def repJourneyFail : AddReplies :=
  { waypointReply := fun _ =>
      { addStage := Except.ok 11, createTransition := Except.ok (),
        setTransition := Except.ok () },
    addJourney := Except.error 5, insertion := Except.ok 31 }

/-- Departure data used by the insertion witnesses. -/
def depW : DepartInfo := { position := { x := 0, y := 0 }, angle := 0, departPos := 2 }

/-- An adapter tracking no pedestrian. -/
def mEmpty : Model := { pedestrianStates := [], numActivePedestrians := 0 }

/-- A pedestrian state still waiting to enter the engine (placeholder agent
id 0), used by the retry witness. -/
def stWait : PState :=
  { person := 6, journeyId := 12, stageId := 2, waypoints := [{ x := 3, y := 0 }],
    agentId := 0, position := { x := 0, y := 0 }, previousPosition := { x := 0, y := 0 },
    angle := 0, lanePosition := 0, waitingToEnter := true }

/-- An adapter tracking only stWait. -/
def mWait : Model := { pedestrianStates := [stWait], numActivePedestrians := 3 }

/-- Per-pedestrian observations whose insertion reply is an occupancy error
with message 8. -/
def obsFail : StepObs :=
  { agentPos := { x := 0, y := 0 }, agentAngle := 0, matchFound := false,
    matchLanePos := 0, expectedNormal := false, candidateNormal := false,
    candidateIsExpected := false, insertionReply := Except.error 8,
    stageRemaining := 2 }

/-- A tracked, inserted pedestrian whose next waypoint is at (6, 8). -/
def stNear : PState :=
  { person := 1, journeyId := 2, stageId := 3, waypoints := [{ x := 6, y := 8 }],
    agentId := 9, position := { x := 0, y := 0 }, previousPosition := { x := 0, y := 0 },
    angle := 0, lanePosition := 0, waitingToEnter := false }

/-- Observations placing the agent at the origin: squared distance to the
waypoint of stNear is 100, exactly (2 * 5) * (2 * 5). -/
def obsBoundary : StepObs :=
  { agentPos := { x := 0, y := 0 }, agentAngle := 0, matchFound := false,
    matchLanePos := 0, expectedNormal := false, candidateNormal := false,
    candidateIsExpected := false, insertionReply := Except.ok 1,
    stageRemaining := 1 }

/-- Observations placing the agent at (1, 1): squared distance to the
waypoint of stNear is 74, strictly below 100. -/
def obsInside : StepObs :=
  { agentPos := { x := 1, y := 1 }, agentAngle := 0, matchFound := false,
    matchLanePos := 0, expectedNormal := false, candidateNormal := false,
    candidateIsExpected := false, insertionReply := Except.ok 1,
    stageRemaining := 1 }

/-- A tracked, inserted pedestrian with two remaining waypoints, used by the
queue-invariant witness. -/
def stTwo : PState :=
  { person := 2, journeyId := 4, stageId := 5,
    waypoints := [{ x := 0, y := 1 }, { x := 0, y := 9 }],
    agentId := 13, position := { x := 0, y := 0 }, previousPosition := { x := 0, y := 0 },
    angle := 0, lanePosition := 0, waitingToEnter := false }

/-- Removal requests add up over concatenation. -/
theorem countRemovalRequests_append (l1 l2 : List Event) :
    countRemovalRequests (l1 ++ l2)
      = countRemovalRequests l1 + countRemovalRequests l2 := by
  induction l1 with
  | nil => simp [countRemovalRequests]
  | cons e rest ih =>
    cases e <;> simp [countRemovalRequests, ih] <;> omega

/-- The iteration sub-step loop performs no removal requests. -/
theorem countRemovalRequests_iterateLoop (iterOk : ℕ → Bool) :
    ∀ n, countRemovalRequests (iterateLoop iterOk n) = 0 := by
  intro n
  induction n with
  | zero => rfl
  | succ k ih =>
    simp only [iterateLoop]
    split
    · simpa using ih
    · simp [countRemovalRequests_append, ih, countRemovalRequests]

/-- C10: the public remove operation is a no-op — for every adapter state
and every argument it returns the adapter state unchanged and performs no
logging, no engine call and no release. -/
theorem removeNoop : ∀ (m : Model) (st : PState), remove m st = (m, []) :=
  fun _ _ => rfl

/-- C9 counterexample: on an adapter tracking one pedestrian state whose
journey id is 7, the destructor trace contains no release of that journey
description, contradicting the claim that every tracked state releases its
journey before the engine handles are freed. -/
theorem destructorJourneyLeak :
    mDtor.pedestrianStates ≠ [] ∧
    (∀ st ∈ mDtor.pedestrianStates, st.journeyId = 7) ∧
    Event.freeJourney 7 ∉ (destructor mDtor).2 := by
  refine ⟨by simp [mDtor], by simp [mDtor, stDtor], ?_⟩
  simp [destructor, clearState]

/-- C9 (amended): on destruction the tracked set is cleared (without
freeing the states, so no journey description is released) before the
engine handles are freed, each exactly once, in the order simulation,
operational model, model builder, geometry, geometry builder, followed by
the network polygon destruction and the geometry-library shutdown. -/
theorem destructorOrder : ∀ m : Model,
    (destructor m).1.pedestrianStates = [] ∧
    (destructor m).2 =
      [Event.clearTrackedStates, Event.freeSimulation, Event.freeModel,
       Event.freeModelBuilder, Event.freeGeometry, Event.freeGeometryBuilder,
       Event.destroyNetwork, Event.finishGEOSCall] ∧
    (∀ j : ℕ, Event.freeJourney j ∉ (destructor m).2) ∧
    ((destructor m).2.count Event.freeSimulation = 1 ∧
     (destructor m).2.count Event.freeModel = 1 ∧
     (destructor m).2.count Event.freeModelBuilder = 1 ∧
     (destructor m).2.count Event.freeGeometry = 1 ∧
     (destructor m).2.count Event.freeGeometryBuilder = 1) := by
  intro m
  refine ⟨rfl, rfl, ?_, rfl, rfl, rfl, rfl, rfl⟩
  intro j
  simp [destructor, clearState]

/-- C7: a non-simple final walkable geometry is a fatal initialization
error: initialization returns the descriptive error and no engine geometry
is ever built from it. -/
theorem nonSimpleGeometryFatal (g : GeosGeometry) (h : g.simple = false) :
    (initializeAdapter g).1 =
      Except.error "Union of walkable areas minus union of obstacles is not a simple polygon." ∧
    Event.engineGeometryBuilt ∉ (initializeAdapter g).2 := by
  simp [initializeAdapter, buildPedestrianNetwork, h]

/-- C7 witness: the fatal-error behavior at a concrete non-simple
geometry. -/
theorem nonSimpleGeometryFatal_witness :
    (initializeAdapter gBad).1 =
      Except.error "Union of walkable areas minus union of obstacles is not a simple polygon." ∧
    Event.engineGeometryBuilt ∉ (initializeAdapter gBad).2 :=
  nonSimpleGeometryFatal gBad rfl

/-- C3 counterexample: for a normal edge paired with a crossing via a
walking area none of whose successor edges is normal, the code synthesizes
a connector polygon from the computed anchors — it does not skip, contrary
to the claim that synthesis is skipped whenever neither relevant neighbor
is normal. -/
theorem connectorSkipCounterexample :
    connectorCase EdgeKind.normal EdgeKind.crossing false [] [EdgeKind.crossing]
      = ConnectorAction.anchorsReal ∧
    ConnectorAction.anchorsReal ≠ ConnectorAction.skip := by
  decide

/-- C3 (amended): in the mixed normal/crossing case a connector polygon is
always synthesized — from the computed lane anchors exactly when none of
the relevant walking-area neighbors (predecessors when the first edge is a
crossing, successors otherwise) is normal, and otherwise from the
default-constructed anchors — and any edge-pair topology outside the three
enumerated cases synthesizes and accumulates nothing. -/
theorem connectorMixedCase (edgeKind nextEdgeKind : EdgeKind) (shapeSimple : Bool)
    (waIncoming waOutgoing : List EdgeKind) :
    (((edgeKind.isNormal && nextEdgeKind.isCrossing)
        || (edgeKind.isCrossing && nextEdgeKind.isNormal)) = true →
      connectorCase edgeKind nextEdgeKind shapeSimple waIncoming waOutgoing
        ≠ ConnectorAction.skip ∧
      (connectorCase edgeKind nextEdgeKind shapeSimple waIncoming waOutgoing
          = ConnectorAction.anchorsReal ↔
        (if edgeKind.isCrossing then waIncoming else waOutgoing).all
          (fun e => !e.isNormal) = true) ∧
      (connectorCase edgeKind nextEdgeKind shapeSimple waIncoming waOutgoing
          = ConnectorAction.anchorsDefault ↔
        ¬ (if edgeKind.isCrossing then waIncoming else waOutgoing).all
          (fun e => !e.isNormal) = true)) ∧
    ((edgeKind.isNormal && nextEdgeKind.isNormal) = false →
      ((edgeKind.isNormal && nextEdgeKind.isCrossing)
        || (edgeKind.isCrossing && nextEdgeKind.isNormal)) = false →
      (edgeKind.isCrossing && nextEdgeKind.isCrossing) = false →
      connectorCase edgeKind nextEdgeKind shapeSimple waIncoming waOutgoing
        = ConnectorAction.skip) := by
  cases edgeKind <;> cases nextEdgeKind <;>
    simp [connectorCase, EdgeKind.isNormal, EdgeKind.isCrossing] <;>
    split <;> simp_all

/-- The running maximum of the selection loop never decreases. -/
theorem selectLoop_le (l : List ℚ) :
    ∀ (i : ℕ) (m : ℚ) (b : Option ℕ), m ≤ (selectLoop l i m b).2 := by
  induction l with
  | nil => intro i m b; simp [selectLoop]
  | cons x rest ih =>
    intro i m b
    simp only [selectLoop]
    split
    · exact le_trans (le_of_lt (by assumption)) (ih (i + 1) x (some i))
    · exact ih (i + 1) m b

/-- Every element of the list is bounded by the final running maximum. -/
theorem selectLoop_mem_le (l : List ℚ) :
    ∀ (i : ℕ) (m : ℚ) (b : Option ℕ) (a : ℚ), a ∈ l → a ≤ (selectLoop l i m b).2 := by
  induction l with
  | nil => intro i m b a ha; simp at ha
  | cons x rest ih =>
    intro i m b a ha
    rcases List.mem_cons.mp ha with h | h
    · subst h
      simp only [selectLoop]
      split
      · exact selectLoop_le rest (i + 1) a (some i)
      · exact le_trans (le_of_not_lt (by assumption)) (selectLoop_le rest (i + 1) m b)
    · simp only [selectLoop]
      split
      · exact ih (i + 1) x (some i) a h
      · exact ih (i + 1) m b a h

/-- The selection loop either keeps its starting accumulator or returns the
index and value of some list element. -/
theorem selectLoop_result (l : List ℚ) :
    ∀ (i : ℕ) (m : ℚ) (b : Option ℕ),
      (selectLoop l i m b).1 = b ∧ (selectLoop l i m b).2 = m ∨
      ∃ j, j < l.length ∧ (selectLoop l i m b).1 = some (i + j) ∧
        (selectLoop l i m b).2 = l.getD j 0 := by
  induction l with
  | nil => intro i m b; left; simp [selectLoop]
  | cons x rest ih =>
    intro i m b
    simp only [selectLoop]
    split
    · rcases ih (i + 1) x (some i) with ⟨h1, h2⟩ | ⟨j, hj, h1, h2⟩
      · right
        exact ⟨0, by simp, by simpa using h1, by simpa using h2⟩
      · right
        refine ⟨j + 1, by simpa using hj, ?_, by simpa using h2⟩
        rw [h1]
        congr 1
        omega
    · rcases ih (i + 1) m b with ⟨h1, h2⟩ | ⟨j, hj, h1, h2⟩
      · left; exact ⟨h1, h2⟩
      · right
        refine ⟨j + 1, by simpa using hj, ?_, by simpa using h2⟩
        rw [h1]
        congr 1
        omega

/-- C2: for a simple merged geometry with at least one connected component
(each with positive area, as GEOS guarantees for polygon components),
initialization selects a component whose area is at least the area of every
other component, and the multiple-components warning is emitted exactly
when there is more than one component. -/
theorem largestComponentSelected (g : GeosGeometry)
    (hsimple : g.simple = true)
    (hne : g.componentAreas ≠ [])
    (hpos : ∀ a ∈ g.componentAreas, 0 < a) :
    (∃ j, j < g.componentAreas.length ∧
        (initializeAdapter g).1 = Except.ok (some j) ∧
        ∀ a ∈ g.componentAreas, a ≤ g.componentAreas.getD j 0) ∧
    (Event.warn ∈ (initializeAdapter g).2 ↔ 1 < g.componentAreas.length) := by
  have hinit : initializeAdapter g
      = (Except.ok (selectMaxAreaIndex g.componentAreas),
         (if g.componentAreas.length > 1 then [Event.warn] else [])
           ++ [Event.engineGeometryBuilt]) := by
    simp [initializeAdapter, buildPedestrianNetwork, hsimple]
  constructor
  · rcases selectLoop_result g.componentAreas 0 0 none with ⟨h1, h2⟩ | ⟨j, hj, h1, h2⟩
    · obtain ⟨a, ha⟩ := List.exists_mem_of_ne_nil g.componentAreas hne
      have hle := selectLoop_mem_le g.componentAreas 0 0 none a ha
      rw [h2] at hle
      exact absurd (lt_of_lt_of_le (hpos a ha) hle) (lt_irrefl 0)
    · refine ⟨j, hj, ?_, ?_⟩
      · rw [hinit]
        simp only [selectMaxAreaIndex]
        rw [h1]
        simp
      · intro a ha
        have hle := selectLoop_mem_le g.componentAreas 0 0 none a ha
        rw [h2] at hle
        exact hle
  · rw [hinit]
    by_cases hlen : g.componentAreas.length > 1 <;> simp [hlen]

/-- C2 witness: the selection and warning behavior at a geometry with
components of areas 1, 3, 2. -/
theorem largestComponentSelected_witness :
    (∃ j, j < gSel.componentAreas.length ∧
        (initializeAdapter gSel).1 = Except.ok (some j) ∧
        ∀ a ∈ gSel.componentAreas, a ≤ gSel.componentAreas.getD j 0) ∧
    (Event.warn ∈ (initializeAdapter gSel).2 ↔ 1 < gSel.componentAreas.length) :=
  largestComponentSelected gSel rfl (by simp [gSel]) (by decide)


/-- A failed addWaypoint call logs a warning embedding the engine
message. -/
theorem addWaypoint_none_warn (r : WaypointReply) (j : JourneyDesc) (p : ℕ)
    (evs : List Event) (h : addWaypoint r j p = (none, evs)) :
    ∃ msg, Event.warnMsg msg ∈ evs := by
  rcases h1 : r.addStage with msg | wid
  · simp only [addWaypoint, h1, Prod.mk.injEq] at h
    exact ⟨msg, by rw [← h.2]; simp⟩
  · simp only [addWaypoint, h1] at h
    by_cases hp : p ≠ 0
    · rw [if_pos hp] at h
      rcases h2 : r.createTransition with msg | u
      · simp only [h2, Prod.mk.injEq] at h
        exact ⟨msg, by rw [← h.2]; simp⟩
      · simp only [h2] at h
        rcases h3 : r.setTransition with msg | u2
        · simp only [h3, Prod.mk.injEq] at h
          exact ⟨msg, by rw [← h.2]; simp⟩
        · simp only [h3, Prod.mk.injEq] at h
          exact absurd h.1 (by simp)
    · rw [if_neg hp, Prod.mk.injEq] at h
      exact absurd h.1 (by simp)

/-- A successful addWaypoint call had a successful stage registration. -/
theorem addWaypoint_some_addStage (r : WaypointReply) (j : JourneyDesc) (p : ℕ)
    (pr : JourneyDesc × ℕ) (evs : List Event)
    (h : addWaypoint r j p = (some pr, evs)) :
    ∃ wid, r.addStage = Except.ok wid := by
  rcases h1 : r.addStage with msg | wid
  · simp only [addWaypoint, h1, Prod.mk.injEq] at h
    exact absurd h.1 (by simp)
  · exact ⟨wid, rfl⟩

/-- A failed waypoint-registration loop logs a warning embedding an engine
message. -/
theorem addWaypointLoop_none_warn (replyAt : ℕ → WaypointReply) :
    ∀ (pts : List Pos) (k : ℕ) (j : JourneyDesc) (pred ss : ℕ) (w : List Pos)
      (evs : List Event),
      addWaypointLoop replyAt pts k j pred ss w = (none, evs) →
      ∃ msg, Event.warnMsg msg ∈ evs := by
  intro pts
  induction pts with
  | nil =>
    intro k j pred ss w evs h
    simp [addWaypointLoop] at h
  | cons p rest ih =>
    intro k j pred ss w evs h
    simp only [addWaypointLoop] at h
    rcases h2 : addWaypoint (replyAt k) j pred with ⟨o, evs1⟩
    rw [h2] at h
    cases o with
    | none =>
      simp at h
      obtain ⟨msg, hm⟩ := addWaypoint_none_warn (replyAt k) j pred evs1 h2
      exact ⟨msg, h ▸ hm⟩
    | some pr =>
      rcases pr with ⟨j2, p2⟩
      simp at h
      rcases h3 : addWaypointLoop replyAt rest (k + 1) j2 p2
          (if ss = 0 then p2 else ss) (w ++ [p]) with ⟨o2, evs2⟩
      rw [h3] at h
      cases o2 with
      | some t => exact absurd h.1 (by simp)
      | none =>
        obtain ⟨msg, hm⟩ := ih (k + 1) j2 p2 (if ss = 0 then p2 else ss)
          (w ++ [p]) evs2 h3
        refine ⟨msg, ?_⟩
        rw [← h.2]
        exact List.mem_append_right evs1 (by simpa using hm)

/-- The insertion attempt never changes the waypoint queue. -/
theorem tryPedestrianInsertion_waypoints (r : Except ℕ ℕ) (s : PState) :
    ((tryPedestrianInsertion r s).1).waypoints = s.waypoints := by
  cases r <;> rfl

/-- Shape of the insertion entry point for a not-yet-tracked person: either
some engine call failed, a warning embedding its message was logged and the
adapter is unchanged with a null result, or the journey was registered and
exactly one new state, whose waypoint queue ends with the arrival position,
was appended with the counter incremented by one. -/
theorem add_shape (rep : AddReplies) (m : Model) (person : ℕ) (dep : DepartInfo)
    (intermediates : List Pos) (arrivalPosition : Pos)
    (hfresh : m.pedestrianStates.find? (fun ps => ps.person == person) = none) :
    (∃ evs, add rep m person dep intermediates arrivalPosition = (m, none, evs) ∧
      ∃ msg, Event.warnMsg msg ∈ evs) ∨
    (∃ st evs jid,
      add rep m person dep intermediates arrivalPosition =
        ({ pedestrianStates := m.pedestrianStates ++ [st],
           numActivePedestrians := m.numActivePedestrians + 1 }, some st, evs) ∧
      rep.addJourney = Except.ok jid ∧
      ∃ w, st.waypoints = w ++ [arrivalPosition]) := by
  simp only [add, hfresh]
  rcases hloop : addWaypointLoop rep.waypointReply intermediates 0 { stages := [] } 0 0 []
    with ⟨o, evs⟩
  cases o with
  | none =>
    left
    exact ⟨evs, rfl, addWaypointLoop_none_warn rep.waypointReply intermediates
      0 { stages := [] } 0 0 [] evs hloop⟩
  | some quad =>
    rcases quad with ⟨j2, p2, ss2, w2⟩
    dsimp only
    rcases harr : addWaypoint (rep.waypointReply intermediates.length) j2 p2 with ⟨o2, evs2⟩
    cases o2 with
    | none =>
      left
      obtain ⟨msg, hm⟩ :=
        addWaypoint_none_warn (rep.waypointReply intermediates.length) j2 p2 evs2 harr
      exact ⟨evs ++ evs2, rfl, msg, List.mem_append_right evs hm⟩
    | some pr =>
      rcases pr with ⟨j3, p3⟩
      dsimp only
      rcases hj : rep.addJourney with msg | jid
      · left
        exact ⟨evs ++ evs2 ++ [Event.warnMsg msg], rfl, msg, by simp⟩
      · right
        refine ⟨_, _, jid, rfl, rfl, w2, ?_⟩
        rw [tryPedestrianInsertion_waypoints]

/-- C4: the insertion entry point is idempotent — when the person already
has a live tracked state, the call returns that state unchanged, changes no
adapter state, emits no warning and registers nothing with the engine. -/
theorem addIdempotent (rep : AddReplies) (m : Model) (person : ℕ) (dep : DepartInfo)
    (intermediates : List Pos) (arrivalPosition : Pos) (pstate : PState)
    (hfound : m.pedestrianStates.find? (fun ps => ps.person == person) = some pstate) :
    add rep m person dep intermediates arrivalPosition = (m, some pstate, []) := by
  simp [add, hfound]

/-- C4 witness: the idempotent return at an adapter already tracking the
person. -/
theorem addIdempotent_witness :
    add repOk mIdem 4 depW [] { x := 5, y := 5 } = (mIdem, some stIdem, []) :=
  addIdempotent repOk mIdem 4 depW [] { x := 5, y := 5 } stIdem rfl

/-- C5: a failed engine waypoint, transition or journey-registration call
during insertion aborts the whole insertion — the null result implies the
adapter is exactly as before (no state appended, counter untouched) and a
warning embedding an engine message was logged; a journey-registration
error, or a stage-registration error on the very first waypoint call,
forces the null result. -/
theorem addFailureAtomic (rep : AddReplies) (m : Model) (person : ℕ) (dep : DepartInfo)
    (intermediates : List Pos) (arrivalPosition : Pos)
    (hfresh : m.pedestrianStates.find? (fun ps => ps.person == person) = none) :
    ((add rep m person dep intermediates arrivalPosition).2.1 = none →
      (add rep m person dep intermediates arrivalPosition).1 = m ∧
      ∃ msg, Event.warnMsg msg ∈ (add rep m person dep intermediates arrivalPosition).2.2) ∧
    (∀ msg, rep.addJourney = Except.error msg →
      (add rep m person dep intermediates arrivalPosition).2.1 = none) ∧
    (∀ msg, (rep.waypointReply 0).addStage = Except.error msg →
      (add rep m person dep intermediates arrivalPosition).2.1 = none) := by
  refine ⟨?_, ?_, ?_⟩
  · intro hnone
    rcases add_shape rep m person dep intermediates arrivalPosition hfresh with
      ⟨evs, heq, msg, hm⟩ | ⟨st, evs, jid, heq, hjid, hw⟩
    · rw [heq]
      exact ⟨rfl, msg, hm⟩
    · rw [heq] at hnone
      simp at hnone
  · intro msg hj
    rcases add_shape rep m person dep intermediates arrivalPosition hfresh with
      ⟨evs, heq, hwarn⟩ | ⟨st, evs, jid, heq, hjid, hw⟩
    · rw [heq]
    · rw [hj] at hjid
      exact absurd hjid (by simp)
  · intro msg hw0
    cases intermediates with
    | nil => simp [add, hfresh, addWaypointLoop, addWaypoint, hw0]
    | cons p rest => simp [add, hfresh, addWaypointLoop, addWaypoint, hw0]

/-- C5 witness: a journey-registration failure at a concrete input leaves
the adapter unchanged and logs the engine message. -/
theorem addFailureAtomic_witness :
    (add repJourneyFail mEmpty 6 depW [] { x := 3, y := 0 }).1 = mEmpty ∧
    ∃ msg, Event.warnMsg msg ∈ (add repJourneyFail mEmpty 6 depW [] { x := 3, y := 0 }).2.2 := by
  have h := addFailureAtomic repJourneyFail mEmpty 6 depW [] { x := 3, y := 0 } rfl
  exact h.1 (h.2.1 5 rfl)

/-- Draining always exhausts the remaining route edges. -/
theorem drainEdges_remaining : ∀ st : HostStage, (drainEdges st).remainingEdges = 0 := by
  intro st
  rcases st with ⟨n⟩
  induction n with
  | zero => simp [drainEdges]
  | succ k ih => simpa [drainEdges] using ih

/-- A pedestrian still waiting to enter only retries insertion: no position
update, no waypoint handling, no stage advance. -/
theorem processPedestrian_waiting (tol : ℚ) (obs : StepObs) (s : PState)
    (hw : s.waitingToEnter = true) :
    processPedestrian tol obs s =
      { state := some (tryPedestrianInsertion obs.insertionReply s).1,
        stage := { remainingEdges := obs.stageRemaining },
        events := (tryPedestrianInsertion obs.insertionReply s).2 } := by
  simp [processPedestrian, PState.isWaitingToEnter, hw]

/-- Normal form of the per-pedestrian step for an already inserted
pedestrian: position, heading and lane position are refreshed into an
intermediate state with the same waypoint queue and agent id, and the
waypoint branch is decided by the strict squared-distance comparison. -/
theorem processPedestrian_active (tol : ℚ) (obs : StepObs) (s : PState)
    (hw : s.waitingToEnter = false) :
    ∃ (s5 : PState) (stage1 : HostStage),
      s5.waypoints = s.waypoints ∧ s5.agentId = s.agentId ∧
      processPedestrian tol obs s =
        if distSq obs.agentPos s.getNextWaypoint < (2 * tol) * (2 * tol) then
          if (s.waypoints.tail).isEmpty then
            { state := none, stage := drainEdges stage1,
              events := [Event.markForRemoval s.agentId] }
          else
            { state := some { s5 with waypoints := s.waypoints.tail },
              stage := drainEdges stage1, events := [] }
        else
          { state := some s5, stage := stage1, events := [] } := by
  by_cases hmf : obs.matchFound = true
  · by_cases hsa : (obs.matchFound && obs.expectedNormal && obs.candidateNormal
        && !obs.candidateIsExpected) = true
    · refine ⟨{ s with previousPosition := s.position, position := obs.agentPos, angle := obs.agentAngle, lanePosition := obs.matchLanePos }, (moveToNextEdge { remainingEdges := obs.stageRemaining }).1, rfl, rfl, ?_⟩
      simp only [hmf, Bool.true_and] at hsa
      simp [processPedestrian, PState.isWaitingToEnter, hw, hmf, hsa,
        PState.getNextWaypoint, PState.advanceNextWaypoint]
    · refine ⟨{ s with previousPosition := s.position, position := obs.agentPos, angle := obs.agentAngle, lanePosition := obs.matchLanePos }, { remainingEdges := obs.stageRemaining }, rfl, rfl, ?_⟩
      simp only [hmf, Bool.true_and] at hsa
      simp [processPedestrian, PState.isWaitingToEnter, hw, hmf, hsa,
        PState.getNextWaypoint, PState.advanceNextWaypoint]
  · have hmf2 : obs.matchFound = false := by simpa using hmf
    refine ⟨{ s with previousPosition := s.position, position := obs.agentPos, angle := obs.agentAngle }, { remainingEdges := obs.stageRemaining }, rfl, rfl, ?_⟩
    simp [processPedestrian, PState.isWaitingToEnter, hw, hmf2,
      PState.getNextWaypoint, PState.advanceNextWaypoint]

/-- C1: a tracked, inserted pedestrian reaches its next pending waypoint
exactly when the 2D Euclidean distance from its new position to that
waypoint is strictly below twice the exit tolerance (compared here in
squared form, equivalent for a nonnegative tolerance): at a distance whose
square equals the square of twice the tolerance, nothing is popped and the
pedestrian is not treated as arrived; at any strictly smaller distance the
host stage is drained and the waypoint is popped, with the state removed
exactly when it was the last waypoint. -/
theorem waypointArrivalStrict (tol : ℚ) (obs : StepObs) (s : PState)
    (htol : 0 ≤ tol) (hw : s.waitingToEnter = false) :
    (distSq obs.agentPos s.getNextWaypoint = (2 * tol) * (2 * tol) →
      ∃ s2, (processPedestrian tol obs s).state = some s2 ∧
        s2.waypoints = s.waypoints ∧
        (processPedestrian tol obs s).events = []) ∧
    (distSq obs.agentPos s.getNextWaypoint < (2 * tol) * (2 * tol) →
      (processPedestrian tol obs s).stage.remainingEdges = 0 ∧
      (∀ s2, (processPedestrian tol obs s).state = some s2 →
        s2.waypoints = s.waypoints.tail) ∧
      ((processPedestrian tol obs s).state = none ↔ s.waypoints.tail = [])) := by
  obtain ⟨s5, stage1, hwp, hid, heq⟩ := processPedestrian_active tol obs s hw
  constructor
  · intro hE
    have hnlt : ¬ distSq obs.agentPos s.getNextWaypoint < (2 * tol) * (2 * tol) := by
      rw [hE]
      exact lt_irrefl _
    rw [heq, if_neg hnlt]
    exact ⟨s5, rfl, hwp, rfl⟩
  · intro hlt
    rw [heq, if_pos hlt]
    by_cases hE : (s.waypoints.tail).isEmpty = true
    · rw [if_pos hE]
      refine ⟨drainEdges_remaining stage1, ?_, ?_⟩
      · intro s2 h2
        exact absurd h2 (by simp)
      · simp only [List.isEmpty_iff] at hE
        simp [hE]
    · rw [if_neg hE]
      simp only [List.isEmpty_iff] at hE
      refine ⟨drainEdges_remaining stage1, ?_, ?_⟩
      · intro s2 h2
        simp at h2
        rw [← h2]
      · simp [hE]

/-- C1 witness: with exit tolerance 5 and waypoint (6, 8), an agent at the
origin (squared distance 100, exactly the squared double tolerance) keeps
its waypoint, while an agent at (1, 1) (squared distance 74) pops it and,
it being the last waypoint, is removed. -/
theorem waypointArrivalStrict_witness :
    (∃ s2, (processPedestrian 5 obsBoundary stNear).state = some s2 ∧
      s2.waypoints = stNear.waypoints ∧
      (processPedestrian 5 obsBoundary stNear).events = []) ∧
    ((processPedestrian 5 obsInside stNear).state = none ↔
      stNear.waypoints.tail = []) := by
  constructor
  · exact (waypointArrivalStrict 5 obsBoundary stNear (by norm_num) rfl).1
      (by norm_num [obsBoundary, stNear, distSq, PState.getNextWaypoint])
  · exact ((waypointArrivalStrict 5 obsInside stNear (by norm_num) rfl).2
      (by norm_num [obsInside, stNear, distSq, PState.getNextWaypoint])).2.2

/-- Each processed pedestrian issues exactly one engine removal request
when its state is erased and none otherwise. -/
theorem processPedestrian_count (tol : ℚ) (obs : StepObs) (s : PState) :
    countRemovalRequests (processPedestrian tol obs s).events
      = if (processPedestrian tol obs s).state = none then 1 else 0 := by
  by_cases hw : s.waitingToEnter = true
  · rw [processPedestrian_waiting tol obs s hw]
    rcases hr : obs.insertionReply with msg | aid <;>
      simp [tryPedestrianInsertion, hr, countRemovalRequests]
  · have hw2 : s.waitingToEnter = false := by simpa using hw
    obtain ⟨s5, stage1, hwp, hid, heq⟩ := processPedestrian_active tol obs s hw2
    rw [heq]
    by_cases hlt : distSq obs.agentPos s.getNextWaypoint < (2 * tol) * (2 * tol)
    · rw [if_pos hlt]
      by_cases hE : (s.waypoints.tail).isEmpty = true
      · rw [if_pos hE]
        simp [countRemovalRequests]
      · rw [if_neg hE]
        simp [countRemovalRequests]
    · rw [if_neg hlt]
      simp [countRemovalRequests]

/-- The number of arrivals counted by the state-update loop equals the
number of removal requests it sends to the engine. -/
theorem executeLoop_count (tol : ℚ) (obs : ℕ → StepObs) :
    ∀ (k : ℕ) (l : List PState),
      (executeLoop tol obs k l).2.1
        = countRemovalRequests (executeLoop tol obs k l).2.2 := by
  intro k l
  induction l generalizing k with
  | nil => simp [executeLoop, countRemovalRequests]
  | cons s rest ih =>
    simp only [executeLoop]
    have hc := processPedestrian_count tol (obs k) s
    rcases hst : (processPedestrian tol (obs k) s).state with _ | s2
    · rw [hst] at hc
      simp at hc
      dsimp only
      rw [countRemovalRequests_append, hc, ih (k + 1)]
      omega
    · rw [hst] at hc
      simp at hc
      dsimp only
      rw [countRemovalRequests_append, hc, ih (k + 1)]
      omega

/-- Per step, the active-pedestrian counter drops by exactly the number of
engine removal requests. -/
theorem execute_counter (tol : ℚ) (iterOk : ℕ → Bool) (nIter : ℕ)
    (obs : ℕ → StepObs) (m : Model) :
    (execute tol iterOk nIter obs m).1.numActivePedestrians
      = m.numActivePedestrians
        - countRemovalRequests (execute tol iterOk nIter obs m).2 := by
  simp only [execute]
  rw [countRemovalRequests_append, countRemovalRequests_iterateLoop,
    ← executeLoop_count tol obs 0 m.pedestrianStates]
  simp

/-- C6: when the engine rejects agent insertion, the tracked state is left
completely unchanged by the step (flag still set, agent id still the
placeholder, no position update), the failure is logged with the engine
message, the adapter counter is untouched, a successful retry is what
stores the agent id and clears the flag, and the counter is incremented
exactly once, by the original add. -/
theorem insertionFailureRetry (tol : ℚ) (iterOk : ℕ → Bool) (nIter : ℕ)
    (obs : ℕ → StepObs) (m : Model) (s : PState) (emsg : ℕ)
    (hstates : m.pedestrianStates = [s])
    (hwait : s.waitingToEnter = true)
    (hfail : (obs 0).insertionReply = Except.error emsg) :
    (execute tol iterOk nIter obs m).1 = m ∧
    Event.warnMsg emsg ∈ (execute tol iterOk nIter obs m).2 ∧
    (∀ aid, tryPedestrianInsertion (Except.ok aid) s =
      (s.setAgentId aid, [Event.addAgent aid])) ∧
    (∀ (rep : AddReplies) (m2 : Model) (person : ℕ) (dep : DepartInfo)
        (ints : List Pos) (arr : Pos) (st : PState),
      m2.pedestrianStates.find? (fun ps => ps.person == person) = none →
      (add rep m2 person dep ints arr).2.1 = some st →
      (add rep m2 person dep ints arr).1.numActivePedestrians
        = m2.numActivePedestrians + 1) := by
  have hps : processPedestrian tol (obs 0) s =
      { state := some s, stage := { remainingEdges := (obs 0).stageRemaining },
        events := [Event.warnMsg emsg] } := by
    rw [processPedestrian_waiting tol (obs 0) s hwait]
    simp [tryPedestrianInsertion, hfail]
  have hloop : executeLoop tol obs 0 [s] = ([s], 0, [Event.warnMsg emsg]) := by
    simp [executeLoop, hps]
  refine ⟨?_, ?_, fun aid => rfl, ?_⟩
  · rcases m with ⟨states, num⟩
    obtain rfl : states = [s] := hstates
    simp [execute, hloop]
  · simp [execute, hstates, hloop]
  · intro rep m2 person dep ints arr st hfresh hsome
    rcases add_shape rep m2 person dep ints arr hfresh with
      ⟨evs, heq, _⟩ | ⟨st2, evs, jid, heq, _, _⟩
    · rw [heq] at hsome
      simp at hsome
    · rw [heq]

/-- C6 witness: a concrete occupancy-rejected insertion retried by one
step leaves the adapter unchanged and logs the engine message. -/
theorem insertionFailureRetry_witness :
    (execute 1 (fun _ => true) 4 (fun _ => obsFail) mWait).1 = mWait ∧
    Event.warnMsg 8 ∈ (execute 1 (fun _ => true) 4 (fun _ => obsFail) mWait).2 := by
  have h := insertionFailureRetry 1 (fun _ => true) 4 (fun _ => obsFail)
    mWait stWait 8 rfl rfl rfl
  exact ⟨h.1, h.2.1⟩

/-- C8: a state kept by the step keeps a non-empty waypoint queue, the
state is erased exactly when a removal request for its agent is sent to the
engine, the counter drop of a step equals its number of removal requests,
and every state created by the insertion entry point starts with a
non-empty waypoint queue — so popping the last waypoint, erasing the state,
decrementing the counter and requesting engine removal coincide. -/
theorem waypointQueueInvariant (tol : ℚ) (obs1 : StepObs) (s : PState)
    (hne : s.waypoints ≠ []) :
    (∀ s2, (processPedestrian tol obs1 s).state = some s2 → s2.waypoints ≠ []) ∧
    ((processPedestrian tol obs1 s).state = none ↔
      Event.markForRemoval s.agentId ∈ (processPedestrian tol obs1 s).events) ∧
    (∀ (iterOk : ℕ → Bool) (nIter : ℕ) (obs : ℕ → StepObs) (m : Model),
      (execute tol iterOk nIter obs m).1.numActivePedestrians
        = m.numActivePedestrians
          - countRemovalRequests (execute tol iterOk nIter obs m).2) ∧
    (∀ (rep : AddReplies) (m : Model) (person : ℕ) (dep : DepartInfo)
        (ints : List Pos) (arr : Pos) (st : PState),
      m.pedestrianStates.find? (fun ps => ps.person == person) = none →
      (add rep m person dep ints arr).2.1 = some st → st.waypoints ≠ []) := by
  refine ⟨?_, ?_, fun iterOk nIter obs m => execute_counter tol iterOk nIter obs m, ?_⟩
  · intro s2 h2
    by_cases hw : s.waitingToEnter = true
    · rw [processPedestrian_waiting tol obs1 s hw] at h2
      simp at h2
      rw [← h2, tryPedestrianInsertion_waypoints]
      exact hne
    · have hw2 : s.waitingToEnter = false := by simpa using hw
      obtain ⟨s5, stage1, hwp, hid, heq⟩ := processPedestrian_active tol obs1 s hw2
      rw [heq] at h2
      by_cases hlt : distSq obs1.agentPos s.getNextWaypoint < (2 * tol) * (2 * tol)
      · rw [if_pos hlt] at h2
        by_cases hE : (s.waypoints.tail).isEmpty = true
        · rw [if_pos hE] at h2
          simp at h2
        · rw [if_neg hE] at h2
          simp only [List.isEmpty_iff] at hE
          simp at h2
          rw [← h2]
          simpa using hE
      · rw [if_neg hlt] at h2
        simp at h2
        rw [← h2]
        simpa [hwp] using hne
  · by_cases hw : s.waitingToEnter = true
    · rw [processPedestrian_waiting tol obs1 s hw]
      rcases hr : obs1.insertionReply with msg | aid <;>
        simp [tryPedestrianInsertion, hr]
    · have hw2 : s.waitingToEnter = false := by simpa using hw
      obtain ⟨s5, stage1, hwp, hid, heq⟩ := processPedestrian_active tol obs1 s hw2
      rw [heq]
      by_cases hlt : distSq obs1.agentPos s.getNextWaypoint < (2 * tol) * (2 * tol)
      · rw [if_pos hlt]
        by_cases hE : (s.waypoints.tail).isEmpty = true
        · rw [if_pos hE]
          simp
        · rw [if_neg hE]
          simp
      · rw [if_neg hlt]
        simp
  · intro rep m person dep ints arr st hfresh hsome
    rcases add_shape rep m person dep ints arr hfresh with
      ⟨evs, heq, _⟩ | ⟨st2, evs, jid, heq, _, w, hwshape⟩
    · rw [heq] at hsome
      simp at hsome
    · rw [heq] at hsome
      simp at hsome
      rw [← hsome, hwshape]
      simp

/-- C8 witness: with two pending waypoints and an in-tolerance position,
the state is kept with a still non-empty queue and no removal request is
sent. -/
theorem waypointQueueInvariant_witness :
    (∀ s2, (processPedestrian 5 obsInside stTwo).state = some s2 →
      s2.waypoints ≠ []) ∧
    ((processPedestrian 5 obsInside stTwo).state = none ↔
      Event.markForRemoval stTwo.agentId ∈ (processPedestrian 5 obsInside stTwo).events) := by
  have h := waypointQueueInvariant 5 obsInside stTwo (by simp [stTwo])
  exact ⟨h.1, h.2.1⟩
